import Mathlib

/-!
Verification of the faketty interposition shim (src/tools/faketty.c).

The shim replaces four libc terminal entry points with synthetic
responders.  We embed the responders as pure Lean functions.  Each
responder takes an explicit `ShimWorld` (the process state the shim could
observe or mutate: the errno variable and the diagnostic stderr log) and
returns its C result together with the written-back out-buffer (if any)
and the resulting world.  Pointers become `Option` values: `none` models
a null pointer, `some b` a valid buffer holding `b`.

Numeric constants are the Darwin (macOS) values from termios.h and
ttycom.h, since the shim targets the macOS dynamic loader.
-/

/-- Darwin input flag ICRNL. -/
def ICRNL : Nat := 0x00000100
/-- Darwin input flag IXON. -/
def IXON : Nat := 0x00000200
/-- Darwin output flag OPOST. -/
def OPOST : Nat := 0x00000001
/-- Darwin output flag ONLCR. -/
def ONLCR : Nat := 0x00000002
/-- Darwin control flag CS8. -/
def CS8 : Nat := 0x00000300
/-- Darwin control flag CREAD. -/
def CREAD : Nat := 0x00000800
/-- Darwin control flag CLOCAL. -/
def CLOCAL : Nat := 0x00008000
/-- Darwin local flag ISIG. -/
def ISIG : Nat := 0x00000080
/-- Darwin local flag ICANON. -/
def ICANON : Nat := 0x00000100
/-- Darwin local flag ECHO. -/
def ECHO : Nat := 0x00000008
/-- Darwin local flag ECHOE. -/
def ECHOE : Nat := 0x00000002
/-- Darwin local flag ECHOK. -/
def ECHOK : Nat := 0x00000004

/-- Darwin control-character indices into c_cc. -/
def VEOF : Nat := 0
/-- Index of the erase character. -/
def VERASE : Nat := 3
/-- Index of the kill character. -/
def VKILL : Nat := 5
/-- Index of the interrupt character. -/
def VINTR : Nat := 8
/-- Index of the quit character. -/
def VQUIT : Nat := 9
/-- Index of the suspend character. -/
def VSUSP : Nat := 10
/-- Index of the flow-start character. -/
def VSTART : Nat := 12
/-- Index of the flow-stop character. -/
def VSTOP : Nat := 13
/-- Index of the minimum-count slot. -/
def VMIN : Nat := 16
/-- Index of the timeout slot. -/
def VTIME : Nat := 17
/-- Number of control-character slots on Darwin. -/
def NCCS : Nat := 20

/-- Darwin speed constant B38400 (speeds are literal baud values). -/
def B38400 : Nat := 38400

/-- Darwin request code TIOCGWINSZ, the get-window-size ioctl. -/
def TIOCGWINSZ : Nat := 0x40087468

/-- The termios record, as the shim fills it: flag words, the
control-character array (length NCCS) and the two speed fields. -/
structure Termios where
  c_iflag : Nat
  c_oflag : Nat
  c_cflag : Nat
  c_lflag : Nat
  c_cc : List Nat
  c_ispeed : Nat
  c_ospeed : Nat
deriving DecidableEq, Repr

/-- The winsize record written by the TIOCGWINSZ branch of ioctl. -/
structure Winsize where
  ws_row : Nat
  ws_col : Nat
  ws_xpixel : Nat
  ws_ypixel : Nat
deriving DecidableEq, Repr

/-- Process state the shim could touch: the errno variable and the
diagnostic text written to stderr.  The shim has no globals of its own. -/
structure ShimWorld where
  errno : Int
  stderrLog : List String
deriving DecidableEq, Repr

/-- memset(termios_p, 0, sizeof(struct termios)): the all-zero record. -/
def zeroTermios : Termios :=
  { c_iflag := 0, c_oflag := 0, c_cflag := 0, c_lflag := 0
  , c_cc := List.replicate NCCS 0, c_ispeed := 0, c_ospeed := 0 }

/-- termios_p->c_cc[i] = v. -/
def setCC (t : Termios) (i v : Nat) : Termios :=
  { t with c_cc := t.c_cc.set i v }

/-- cfsetispeed: store the input speed field. -/
def cfsetispeed (t : Termios) (s : Nat) : Termios := { t with c_ispeed := s }

/-- cfsetospeed: store the output speed field. -/
def cfsetospeed (t : Termios) (s : Nat) : Termios := { t with c_ospeed := s }

/-- The record tcgetattr builds on its success path, line for line from
the source: memset to zero, then the four flag words, the eight control
characters, and the two speeds.  The computation reads neither the
descriptor nor the previous buffer contents, so it is a constant. -/
def faketty_attrs : Termios :=
  let t := zeroTermios
  let t := { t with c_iflag := ICRNL ||| IXON }
  let t := { t with c_oflag := OPOST ||| ONLCR }
  let t := { t with c_cflag := CS8 ||| CREAD ||| CLOCAL }
  let t := { t with c_lflag := ISIG ||| ICANON ||| ECHO ||| ECHOE ||| ECHOK }
  let t := setCC t VINTR 3
  let t := setCC t VQUIT 28
  let t := setCC t VERASE 127
  let t := setCC t VKILL 21
  let t := setCC t VEOF 4
  let t := setCC t VSTART 17
  let t := setCC t VSTOP 19
  let t := setCC t VSUSP 26
  let t := cfsetispeed t B38400
  let t := cfsetospeed t B38400
  t

/-- int fake_isatty(int fd): writes one diagnostic line and returns 1. -/
def fake_isatty (w : ShimWorld) (fd : Int) : Int × ShimWorld :=
  (1, { w with stderrLog := w.stderrLog ++ ["FAKETTY: isatty() called!\n"] })

/-- int tcgetattr(int fd, struct termios *termios_p): on a null pointer
return -1 (errno untouched, nothing written); otherwise overwrite the
whole buffer with faketty_attrs and return 0. -/
def tcgetattr (w : ShimWorld) (fd : Int) (termios_p : Option Termios) :
    Int × Option Termios × ShimWorld :=
  match termios_p with
  | none => (-1, none, w)
  | some _ => (0, some faketty_attrs, w)

/-- int tcsetattr(int fd, int optional_actions, const struct termios *p):
return 0, touching nothing. -/
def tcsetattr (w : ShimWorld) (fd : Int) (optional_actions : Int)
    (termios_p : Option Termios) : Int × ShimWorld :=
  (0, w)

/-- int ioctl(int fd, unsigned long request, ...): for TIOCGWINSZ with a
non-null winsize pointer, fill in 24x80 with zero pixel sizes and return
0; for TIOCGWINSZ with a null pointer, and for every other request code,
return 0 without reading or writing the variant argument. -/
def ioctl (w : ShimWorld) (fd : Int) (request : Nat) (arg : Option Winsize) :
    Int × Option Winsize × ShimWorld :=
  if request = TIOCGWINSZ then
    match arg with
    | some _ =>
        (0, some { ws_row := 24, ws_col := 80, ws_xpixel := 0, ws_ypixel := 0 }, w)
    | none => (0, none, w)
  else
    (0, arg, w)

/-- The functions appearing in the interpose table. -/
inductive CFunc where
  | fake_isatty_f
  | isatty_f
  | tcgetattr_f
  | tcsetattr_f
  | ioctl_f
deriving DecidableEq, Repr

/-- One DYLD interpose entry: replacement and original entry point. -/
structure interpose_t where
  new_func : CFunc
  orig_func : CFunc
deriving DecidableEq, Repr

/-- The __DATA,__interpose section contents: a single entry replacing
isatty with fake_isatty.  tcgetattr, tcsetattr and ioctl are intercepted
by the library defining symbols of those names, not through this table. -/
def interposers : List interpose_t :=
  [{ new_func := CFunc.fake_isatty_f, orig_func := CFunc.isatty_f }]

/-- The constant record claim C2 lists field by field: input flags
ICRNL|IXON, output flags OPOST|ONLCR, control flags CS8|CREAD|CLOCAL,
local flags ISIG|ICANON|ECHO|ECHOE|ECHOK, the eight documented control
characters at their Darwin slots with every other slot zero, and the
fixed 38400-baud speed on both directions. -/
def documentedTermios : Termios :=
  { c_iflag := ICRNL ||| IXON
  , c_oflag := OPOST ||| ONLCR
  , c_cflag := CS8 ||| CREAD ||| CLOCAL
  , c_lflag := ISIG ||| ICANON ||| ECHO ||| ECHOE ||| ECHOK
  , c_cc := [4, 0, 0, 127, 0, 21, 0, 0, 3, 28, 26, 0, 17, 19, 0, 0, 0, 0, 0, 0]
  , c_ispeed := B38400
  , c_ospeed := B38400 }

/-- Claim C1: for every descriptor value (negative, zero, arbitrary
positive, or one referring to a closed, pipe-backed or file-backed
descriptor), the interactivity query returns true (the value 1). -/
theorem isatty_always_one (w : ShimWorld) (fd : Int) :
    (fake_isatty w fd).1 = 1 := rfl

/-- Claim C2: for every descriptor and every non-null output pointer,
get-attributes succeeds and overwrites the buffer with exactly the
documented constant record, and any two calls (with any descriptors and
any prior buffer contents) produce identical buffer contents. -/
theorem tcgetattr_constant_record (w w' : ShimWorld) (fd fd' : Int)
    (b b' : Termios) :
    (tcgetattr w fd (some b)).1 = 0 ∧
    (tcgetattr w fd (some b)).2.1 = some documentedTermios ∧
    (tcgetattr w fd (some b)).2.1 = (tcgetattr w' fd' (some b')).2.1 :=
  ⟨rfl, by show some faketty_attrs = some documentedTermios; decide, rfl⟩

/-- Claim C3: for every descriptor, get-attributes called with a null
output pointer fails (returns the -1 invalid-argument indication),
writes no buffer and changes no state: the world comes back unchanged. -/
theorem tcgetattr_null_fails (w : ShimWorld) (fd : Int) :
    tcgetattr w fd none = (-1, none, w) := rfl

/-- Claim C4: device-control with the TIOCGWINSZ request and a non-null
buffer writes rows=24, columns=80, pixel sizes 0 and succeeds; with a
null buffer it writes nothing and still succeeds; every other request
code succeeds without reading or writing the variant argument. -/
theorem ioctl_winsize_behavior (w : ShimWorld) (fd : Int) (b : Winsize)
    (request : Nat) (arg : Option Winsize) (hreq : request ≠ TIOCGWINSZ) :
    ioctl w fd TIOCGWINSZ (some b) =
      (0, some { ws_row := 24, ws_col := 80, ws_xpixel := 0, ws_ypixel := 0 }, w) ∧
    ioctl w fd TIOCGWINSZ none = (0, none, w) ∧
    ioctl w fd request arg = (0, arg, w) := by
  refine ⟨by simp [ioctl], by simp [ioctl], ?_⟩
  simp [ioctl, hreq]

/-- Witness for C4 at concrete inputs (request code 0 is not TIOCGWINSZ). -/
theorem ioctl_winsize_behavior_witness :
    ioctl ⟨0, []⟩ 0 TIOCGWINSZ (some ⟨1, 2, 3, 4⟩) =
      (0, some { ws_row := 24, ws_col := 80, ws_xpixel := 0, ws_ypixel := 0 }, ⟨0, []⟩) ∧
    ioctl ⟨0, []⟩ 0 TIOCGWINSZ none = (0, none, ⟨0, []⟩) ∧
    ioctl ⟨0, []⟩ 0 0 none = (0, none, ⟨0, []⟩) :=
  ioctl_winsize_behavior ⟨0, []⟩ 0 ⟨1, 2, 3, 4⟩ 0 none (by decide)

/-- Claim C5: for every descriptor, action selector and requested
attributes pointer (including null), set-attributes reports success and
mutates nothing, so a get-attributes call after it returns exactly what
it would have returned before it. -/
theorem tcsetattr_noop (w : ShimWorld) (fd optional_actions : Int)
    (p : Option Termios) (fd' : Int) (q : Option Termios) :
    (tcsetattr w fd optional_actions p).1 = 0 ∧
    tcgetattr (tcsetattr w fd optional_actions p).2 fd' q =
      tcgetattr w fd' q :=
  ⟨rfl, rfl⟩

/-- Counterexample to claim C6 as stated: the interposition table does
not redirect four entry points; get-attributes (tcgetattr) does not even
appear among the originals it redirects, and the table has one entry,
not four. -/
theorem interposers_not_four :
    ¬ (interposers.length = 4 ∧
       CFunc.tcgetattr_f ∈ interposers.map interpose_t.orig_func) := by
  decide

/-- Claim C6 (amended): the interposition table is a fixed compile-time
constant containing exactly one entry, which redirects the interactivity
query (isatty) to fake_isatty; the other three entry points are not
routed through the table. -/
theorem interposers_single_entry :
    interposers = [{ new_func := CFunc.fake_isatty_f, orig_func := CFunc.isatty_f }] ∧
    interposers.length = 1 := ⟨rfl, rfl⟩

/-- Claim C7: none of the four responders carries state across calls:
each responder's return value and written buffer depend only on its
arguments, never on the world, so two runs on equal inputs agree and no
call can change the result of any later call. -/
theorem responders_stateless (w w' : ShimWorld) (fd optional_actions : Int)
    (p : Option Termios) (request : Nat) (arg : Option Winsize) :
    (fake_isatty w fd).1 = (fake_isatty w' fd).1 ∧
    ((tcgetattr w fd p).1 = (tcgetattr w' fd p).1 ∧
     (tcgetattr w fd p).2.1 = (tcgetattr w' fd p).2.1) ∧
    (tcsetattr w fd optional_actions p).1 =
      (tcsetattr w' fd optional_actions p).1 ∧
    ((ioctl w fd request arg).1 = (ioctl w' fd request arg).1 ∧
     (ioctl w fd request arg).2.1 = (ioctl w' fd request arg).2.1) := by
  refine ⟨rfl, ?_, rfl, ?_⟩
  · cases p <;> exact ⟨rfl, rfl⟩
  · by_cases h : request = TIOCGWINSZ
    · cases arg <;> simp [ioctl, h]
    · simp [ioctl, h]

/-- Claim C8: after a successful get-attributes call, every control
character slot other than the eight documented ones (interrupt, quit,
erase, kill, end-of-input, flow-start, flow-stop, suspend) holds 0,
the minimum-count and timeout slots included. -/
theorem tcgetattr_unlisted_cc_zero (w : ShimWorld) (fd : Int) (b : Termios)
    (i : Nat) (hlt : i < NCCS)
    (hni : i ∉ [VINTR, VQUIT, VERASE, VKILL, VEOF, VSTART, VSTOP, VSUSP]) :
    (((tcgetattr w fd (some b)).2.1).getD zeroTermios).c_cc.getD i 1 = 0 := by
  show faketty_attrs.c_cc.getD i 1 = 0
  have hlt' : i < 20 := hlt
  interval_cases i <;> revert hni <;> decide

/-- Witness for C8 at the minimum-count slot (index VMIN = 16). -/
theorem tcgetattr_unlisted_cc_zero_witness :
    (((tcgetattr ⟨0, []⟩ 0 (some zeroTermios)).2.1).getD zeroTermios).c_cc.getD 16 1 = 0 :=
  tcgetattr_unlisted_cc_zero ⟨0, []⟩ 0 zeroTermios 16 (by decide) (by decide)

/-- Claim C9: after a successful get-attributes call, the input and
output speeds of the returned record are equal, both exactly B38400. -/
theorem tcgetattr_speeds (w : ShimWorld) (fd : Int) (b : Termios) :
    (((tcgetattr w fd (some b)).2.1).getD zeroTermios).c_ispeed =
      (((tcgetattr w fd (some b)).2.1).getD zeroTermios).c_ospeed ∧
    (((tcgetattr w fd (some b)).2.1).getD zeroTermios).c_ispeed = B38400 :=
  ⟨rfl, rfl⟩

/-- Claim C10: on the null-pointer failure path, get-attributes returns
-1 as its only error indication and leaves the errno variable exactly as
it was: no error code is stored before returning. -/
theorem tcgetattr_null_errno_unchanged (w : ShimWorld) (fd : Int) :
    (tcgetattr w fd none).1 = -1 ∧
    (tcgetattr w fd none).2.2.errno = w.errno := ⟨rfl, rfl⟩
